import Mathlib

/-!
Verification development for the PourYa Oura-ring data handler
(`src/oura_data_handler.py`).

The Python code is shallowly embedded: pure date arithmetic is modelled on
top of a proleptic-Gregorian ordinal encoding (the encoding used by
`datetime.date.toordinal`, day 1 = 0001-01-01), DataFrames are modelled as
lists of rows, printed diagnostics are collected in lists, and the external
collaborators (the HTTP layer, the `ruptures.Pelt` changepoint solver,
`numpy.log`, pandas `resample`) are abstract function parameters.
Fallible Python code (raised exceptions) is modelled with `Option`.
-/

set_option maxRecDepth 8000

namespace PourYa

/-! ## Gregorian calendar model (Python `datetime.date` / `timedelta`)

`datetime.date` implements the proleptic Gregorian calendar with
`date.min = 0001-01-01` (ordinal 1) and `date.max = 9999-12-31`
(ordinal 3652059); `date ± timedelta(days = k)` is exactly ordinal
arithmetic, raising `OverflowError` outside that range. -/

/-- Gregorian leap-year test (as in `calendar.isleap`). -/
def isLeap (y : ℕ) : Bool :=
  (y % 4 == 0 && y % 100 != 0) || y % 400 == 0

/-- Length of month `m` (1..12) given the leap flag of the year. -/
def daysInMonthB (leap : Bool) (m : ℕ) : ℕ :=
  if m = 2 then (if leap then 29 else 28)
  else if m = 4 ∨ m = 6 ∨ m = 9 ∨ m = 11 then 30
  else 31

/-- Length of month `m` (1..12) of year `y`. -/
def daysInMonth (y m : ℕ) : ℕ := daysInMonthB (isLeap y) m

/-- Number of days in a year with the given leap flag. -/
def daysInYearB (leap : Bool) : ℕ := if leap then 366 else 365

/-- Number of days in year `y`. -/
def daysInYear (y : ℕ) : ℕ := daysInYearB (isLeap y)

/-- Number of days in the months strictly before month `m`
(given the year's leap flag). -/
def daysBeforeMonthB (leap : Bool) : ℕ → ℕ
  | 0 => 0
  | 1 => 0
  | m + 1 => daysBeforeMonthB leap m + daysInMonthB leap m

/-- Number of days in the years strictly before year `y`
(closed form used by CPython's `datetime`). -/
def daysBeforeYear (y : ℕ) : ℕ :=
  365 * (y - 1) + (y - 1) / 4 - (y - 1) / 100 + (y - 1) / 400

/-- Proleptic Gregorian ordinal of the date `(y, m, d)`
(`datetime.date(y, m, d).toordinal()`; 0001-01-01 has ordinal 1). -/
def toOrdinal (y m d : ℕ) : ℕ :=
  daysBeforeYear y + daysBeforeMonthB (isLeap y) m + d

/-- Largest ordinal representable by `datetime.date` (9999-12-31). -/
def maxOrdinal : ℕ := 3652059

/-- Year-extraction loop of ordinal-to-date conversion: starting at year
`y` with `n` days remaining, step forward one year at a time. -/
def findYear : ℕ → ℕ → ℕ → ℕ × ℕ
  | 0, y, n => (y, n)
  | fuel + 1, y, n =>
    if n ≤ daysInYear y then (y, n)
    else findYear fuel (y + 1) (n - daysInYear y)

/-- Month-extraction loop of ordinal-to-date conversion. -/
def findMonth : ℕ → Bool → ℕ → ℕ → ℕ × ℕ
  | 0, _, m, n => (m, n)
  | fuel + 1, leap, m, n =>
    if n ≤ daysInMonthB leap m then (m, n)
    else findMonth fuel leap (m + 1) (n - daysInMonthB leap m)

/-- Date `(y, m, d)` of a proleptic Gregorian ordinal
(`datetime.date.fromordinal`). -/
def fromOrdinal (n : ℕ) : ℕ × ℕ × ℕ :=
  let p := findYear n 1 n
  let q := findMonth 12 (isLeap p.1) 1 p.2
  (p.1, q.1, q.2)

theorem daysBeforeYear_one : daysBeforeYear 1 = 0 := rfl

theorem isLeap_iff (y : ℕ) :
    isLeap y = true ↔ (4 ∣ y ∧ ¬ (100 ∣ y)) ∨ 400 ∣ y := by
  unfold isLeap
  simp only [Bool.or_eq_true, Bool.and_eq_true, beq_iff_eq, bne_iff_ne, Ne]
  omega

set_option maxHeartbeats 1000000 in
theorem daysBeforeYear_succ (y : ℕ) (hy : 1 ≤ y) :
    daysBeforeYear (y + 1) = daysBeforeYear y + daysInYear y := by
  obtain ⟨z, rfl⟩ : ∃ z, y = z + 1 := ⟨y - 1, by omega⟩
  have hiff := isLeap_iff (z + 1)
  rcases Bool.eq_false_or_eq_true (isLeap (z + 1)) with hleap | hleap <;>
    rw [hleap] at hiff <;> simp at hiff <;>
    simp [daysBeforeYear, daysInYear, daysInYearB, hleap] <;>
    omega

theorem daysBeforeYear_mono {a b : ℕ} (ha : 1 ≤ a) (hab : a ≤ b) :
    daysBeforeYear a ≤ daysBeforeYear b := by
  induction b with
  | zero => omega
  | succ b ih =>
    rcases Nat.lt_or_ge a (b + 1) with h | h
    · have hb : 1 ≤ b := by omega
      have := daysBeforeYear_succ b hb
      have := ih (by omega)
      omega
    · have : a = b + 1 := by omega
      subst this
      exact le_refl _

/-- Invariant of the year-extraction loop: it preserves the total ordinal,
keeps the remainder positive, and (with enough fuel) stops with the
remainder inside the found year. -/
theorem findYear_spec (fuel : ℕ) :
    ∀ y n, 1 ≤ y → 1 ≤ n → n ≤ 365 * fuel + 365 →
    let p := findYear fuel y n
    1 ≤ p.1 ∧ y ≤ p.1 ∧ 1 ≤ p.2 ∧ p.2 ≤ daysInYear p.1 ∧
      daysBeforeYear p.1 + p.2 = daysBeforeYear y + n := by
  induction fuel with
  | zero =>
    intro y n hy hn hbound
    have hle : n ≤ daysInYear y := by
      unfold daysInYear daysInYearB
      split <;> omega
    simp only [findYear]
    exact ⟨hy, le_refl _, hn, hle, trivial⟩
  | succ fuel ih =>
    intro y n hy hn hbound
    simp only [findYear]
    split
    · exact ⟨hy, le_refl _, hn, by assumption, rfl⟩
    · rename_i hgt
      push_neg at hgt
      have hdy : 365 ≤ daysInYear y ∧ daysInYear y ≤ 366 := by
        unfold daysInYear daysInYearB
        split <;> omega
      have h1 : 1 ≤ n - daysInYear y := by omega
      have h2 : n - daysInYear y ≤ 365 * fuel + 365 := by omega
      have step := ih (y + 1) (n - daysInYear y) (by omega) h1 h2
      obtain ⟨s1, s2, s3, s4, s5⟩ := step
      refine ⟨s1, by omega, s3, s4, ?_⟩
      rw [s5, daysBeforeYear_succ y hy]
      omega

/-- Correctness of the month-extraction loop, checked exhaustively over
both leap flags and every day-of-year. -/
theorem findMonth_spec :
    ∀ leap : Bool, ∀ n < 367, 1 ≤ n → n ≤ daysInYearB leap →
    let q := findMonth 12 leap 1 n
    1 ≤ q.1 ∧ q.1 ≤ 12 ∧ 1 ≤ q.2 ∧ q.2 ≤ daysInMonthB leap q.1 ∧
      daysBeforeMonthB leap q.1 + q.2 = n := by decide

/-- On valid month/day pairs the within-year offset is bounded by the
year length. -/
theorem daysBeforeMonthB_add_le :
    ∀ leap : Bool, ∀ m < 13, ∀ d < 32, 1 ≤ m → 1 ≤ d →
      d ≤ daysInMonthB leap m →
      daysBeforeMonthB leap m + d ≤ daysInYearB leap := by decide

/-- `fromOrdinal` is a right inverse of `toOrdinal` on the representable
range, and it produces a calendar-valid date with year at most 9999. -/
theorem toOrdinal_fromOrdinal (n : ℕ) (h1 : 1 ≤ n) (h2 : n ≤ maxOrdinal) :
    let t := fromOrdinal n
    toOrdinal t.1 t.2.1 t.2.2 = n ∧
    1 ≤ t.1 ∧ t.1 ≤ 9999 ∧ 1 ≤ t.2.1 ∧ t.2.1 ≤ 12 ∧
    1 ≤ t.2.2 ∧ t.2.2 ≤ daysInMonth t.1 t.2.1 := by
  have hy := findYear_spec n 1 n (le_refl 1) h1 (by omega)
  set p := findYear n 1 n with hp
  obtain ⟨y1, _, n1, nle, htot⟩ := hy
  have hn2 : p.2 ≤ 366 := by
    have : daysInYear p.1 ≤ 366 := by
      unfold daysInYear daysInYearB
      split <;> omega
    omega
  have hm := findMonth_spec (isLeap p.1) p.2 (by omega) n1 nle
  set q := findMonth 12 (isLeap p.1) 1 p.2 with hq
  obtain ⟨m1, m12, d1, dle, hmon⟩ := hm
  have htop : toOrdinal p.1 q.1 q.2 = n := by
    unfold toOrdinal
    rw [daysBeforeYear_one] at htot
    omega
  have hy9999 : p.1 ≤ 9999 := by
    by_contra hgt
    push_neg at hgt
    have h10000 : daysBeforeYear 10000 ≤ daysBeforeYear p.1 :=
      daysBeforeYear_mono (by omega) (by omega)
    have hval : daysBeforeYear 10000 = 3652059 := by norm_num [daysBeforeYear]
    have : daysBeforeYear p.1 + p.2 = n := by
      rw [daysBeforeYear_one] at htot
      omega
    unfold maxOrdinal at h2
    omega
  exact ⟨htop, y1, hy9999, m1, m12, d1, dle⟩

/-! ## ISO `YYYY-MM-DD` strings

`_convert_date` talks to `datetime.strptime`/`strftime` with the fixed
format `'%Y-%m-%d'`.  We model the canonical zero-padded ISO form (the
"valid ISO `YYYY-MM-DD`" inputs of the spec): ten characters, two dashes,
all other positions decimal digits, and the parsed triple must be a valid
calendar date (`strptime` raises `ValueError` otherwise). -/

/-- Decimal digit character for `n < 10`. -/
def digitChar (n : ℕ) : Char := Char.ofNat (48 + n)

/-- Numeric value of a decimal digit character, `none` on non-digits. -/
def digitVal (c : Char) : Option ℕ :=
  if 48 ≤ c.toNat ∧ c.toNat ≤ 57 then some (c.toNat - 48) else none

/-- `date(y, m, d).strftime('%Y-%m-%d')`: zero-padded `YYYY-MM-DD`. -/
def formatDate (y m d : ℕ) : List Char :=
  [digitChar (y / 1000 % 10), digitChar (y / 100 % 10),
   digitChar (y / 10 % 10), digitChar (y % 10), '-',
   digitChar (m / 10 % 10), digitChar (m % 10), '-',
   digitChar (d / 10 % 10), digitChar (d % 10)]

/-- `datetime.strptime(s, '%Y-%m-%d').date()` on canonical ISO input:
`none` models a raised `ValueError`. -/
def parseDate (s : List Char) : Option (ℕ × ℕ × ℕ) :=
  match s with
  | [y1, y2, y3, y4, s1, m1, m2, s2, d1, d2] =>
    if s1 = '-' ∧ s2 = '-' then
      match digitVal y1, digitVal y2, digitVal y3, digitVal y4,
            digitVal m1, digitVal m2, digitVal d1, digitVal d2 with
      | some a, some b, some c, some e, some f, some g, some h, some i =>
        if 1 ≤ ((a * 10 + b) * 10 + c) * 10 + e ∧ 1 ≤ f * 10 + g ∧
            f * 10 + g ≤ 12 ∧ 1 ≤ h * 10 + i ∧
            h * 10 + i ≤ daysInMonth (((a * 10 + b) * 10 + c) * 10 + e) (f * 10 + g) then
          some (((a * 10 + b) * 10 + c) * 10 + e, f * 10 + g, h * 10 + i)
        else none
      | _, _, _, _, _, _, _, _ => none
    else none
  | _ => none

/-- Syntactic shape check for ISO `YYYY-MM-DD`: ten characters,
digits and dashes in the right positions. -/
def isISODateShape (s : List Char) : Bool :=
  match s with
  | [y1, y2, y3, y4, s1, m1, m2, s2, d1, d2] =>
    y1.isDigit && y2.isDigit && y3.isDigit && y4.isDigit && s1 == '-' &&
    m1.isDigit && m2.isDigit && s2 == '-' && d1.isDigit && d2.isDigit
  | _ => false

/-- The signed day offset of the spec's fixed period table
(`week` → 7 days earlier, `month` → 30, `year` → 365, `day` → 1 later,
anything else → unchanged). -/
def periodOffset (p : Option String) : ℤ :=
  match p with
  | some "week" => -7
  | some "month" => -30
  | some "year" => -365
  | some "day" => 1
  | _ => 0

/-- Shallow embedding of `OuraDataHandler._convert_date`
(`oura_data_handler.py` lines 27-47): parse the input with
`strptime('%Y-%m-%d')`, adjust by a `timedelta` according to the period
tag (date ± timedelta is exactly proleptic-Gregorian ordinal arithmetic,
raising `OverflowError` — modelled by `none` — outside
`[0001-01-01, 9999-12-31]`), and reformat with `strftime('%Y-%m-%d')`.
An unrecognized or absent period formats the parsed date unchanged. -/
def convert_date (s : List Char) (period : Option String) : Option (List Char) :=
  match parseDate s with
  | none => none
  | some (y, m, d) =>
    let o : ℤ := (toOrdinal y m d : ℤ)
    let emit : ℤ → Option (List Char) := fun o' =>
      if 1 ≤ o' ∧ o' ≤ (maxOrdinal : ℤ) then
        some (formatDate (fromOrdinal o'.toNat).1 (fromOrdinal o'.toNat).2.1
          (fromOrdinal o'.toNat).2.2)
      else none
    match period with
    | some q =>
      if q = "week" then emit (o - 7)
      else if q = "month" then emit (o - 30)
      else if q = "year" then emit (o - 365)
      else if q = "day" then emit (o + 1)
      else some (formatDate y m d)
    | none => some (formatDate y m d)

/-- `OuraDataHandler._convert_date` at the `String` level. -/
def _convert_date (input_date : String) (period : Option String) : Option String :=
  (convert_date input_date.data period).map String.mk

theorem digitVal_digitChar_mod (n : ℕ) :
    digitVal (digitChar (n % 10)) = some (n % 10) := by
  have hall : ∀ k < 10, digitVal (digitChar k) = some k := by decide
  exact hall _ (Nat.mod_lt _ (by norm_num))

theorem isDigit_digitChar_mod (n : ℕ) :
    (digitChar (n % 10)).isDigit = true := by
  have hall : ∀ k < 10, (digitChar k).isDigit = true := by decide
  exact hall _ (Nat.mod_lt _ (by norm_num))

theorem digitVal_lt {c : Char} {k : ℕ} (h : digitVal c = some k) : k < 10 := by
  unfold digitVal at h
  split at h
  · rename_i hc
    injection h with h
    omega
  · exact absurd h (by simp)

theorem daysInMonth_le (y m : ℕ) : daysInMonth y m ≤ 31 := by
  unfold daysInMonth daysInMonthB
  split <;> (try split) <;> omega

/-- Round trip: formatting a valid date with year at most 9999 yields a
string of ISO shape that parses back to the same triple. -/
theorem parseDate_formatDate (y m d : ℕ) (hy1 : 1 ≤ y) (hy : y ≤ 9999)
    (hm1 : 1 ≤ m) (hm : m ≤ 12) (hd1 : 1 ≤ d) (hd : d ≤ daysInMonth y m) :
    parseDate (formatDate y m d) = some (y, m, d) ∧
    isISODateShape (formatDate y m d) = true := by
  have hd31 : d ≤ 31 := le_trans hd (daysInMonth_le y m)
  have e1 : y / 100 / 10 = y / 1000 := by
    rw [Nat.div_div_eq_div_mul]
  have e2 : y / 10 / 10 = y / 100 := by
    rw [Nat.div_div_eq_div_mul]
  have hY : ((y / 1000 % 10 * 10 + y / 100 % 10) * 10 + y / 10 % 10) * 10
      + y % 10 = y := by omega
  have hM : m / 10 % 10 * 10 + m % 10 = m := by omega
  have hD : d / 10 % 10 * 10 + d % 10 = d := by omega
  refine ⟨?_, ?_⟩
  · simp only [formatDate, parseDate, digitVal_digitChar_mod, hY, hM, hD]
    simp [hy1, hm1, hm, hd1, hd]
  · simp [formatDate, isISODateShape, isDigit_digitChar_mod]

/-- Inversion: a successful parse yields a calendar-valid date with
year between 1 and 9999. -/
theorem parseDate_bounds {s : List Char} {y m d : ℕ}
    (h : parseDate s = some (y, m, d)) :
    1 ≤ y ∧ y ≤ 9999 ∧ 1 ≤ m ∧ m ≤ 12 ∧ 1 ≤ d ∧ d ≤ daysInMonth y m := by
  unfold parseDate at h
  split at h
  · split at h
    · split at h
      · rename_i a b c e f g hh i ha hb hc he hf hg hhh hi
        split at h
        · rename_i hguard
          obtain ⟨h1, h2, h3, h4, h5⟩ := hguard
          have la := digitVal_lt ha
          have lb := digitVal_lt hb
          have lc := digitVal_lt hc
          have le' := digitVal_lt he
          injection h with h
          have hy : ((a * 10 + b) * 10 + c) * 10 + e = y := congrArg Prod.fst h
          have hm' : f * 10 + g = m := congrArg (fun t => t.2.1) h
          have hd' : hh * 10 + i = d := congrArg (fun t => t.2.2) h
          subst hy hm' hd'
          exact ⟨h1, by omega, h2, h3, h4, h5⟩
        · exact absurd h (by simp)
      · exact absurd h (by simp)
    · exact absurd h (by simp)
  · exact absurd h (by simp)

/-- The ordinal of a calendar-valid date with year at most 9999 is in the
representable range. -/
theorem toOrdinal_mem_range (y m d : ℕ) (hy1 : 1 ≤ y) (hy : y ≤ 9999)
    (hm1 : 1 ≤ m) (hm : m ≤ 12) (hd1 : 1 ≤ d) (hd : d ≤ daysInMonth y m) :
    1 ≤ toOrdinal y m d ∧ toOrdinal y m d ≤ maxOrdinal := by
  have hd31 : d < 32 := by
    unfold daysInMonth daysInMonthB at hd
    revert hd
    split <;> (try split) <;> omega
  have hmon := daysBeforeMonthB_add_le (isLeap y) m (by omega) d hd31 hm1 hd1 hd
  have hsucc := daysBeforeYear_succ y hy1
  have hmono : daysBeforeYear (y + 1) ≤ daysBeforeYear 10000 :=
    daysBeforeYear_mono (by omega) (by omega)
  have hval : daysBeforeYear 10000 = 3652059 := by norm_num [daysBeforeYear]
  unfold toOrdinal maxOrdinal
  unfold daysInYear at hsucc
  omega

theorem periodOffset_other (q : String) (h1 : ¬ q = "week") (h2 : ¬ q = "month")
    (h3 : ¬ q = "year") (h4 : ¬ q = "day") : periodOffset (some q) = 0 := by
  unfold periodOffset
  split <;> simp_all

/-- Helper for the shifted branches of `_convert_date`: when the shifted
ordinal is representable, the emitted string is the formatted
`fromOrdinal` image, which is ISO-shaped, parses back, and has exactly
the shifted ordinal. -/
theorem emit_spec (o' : ℤ) (h1 : 1 ≤ o') (h2 : o' ≤ (maxOrdinal : ℤ)) :
    ∃ y' m' d',
      (if 1 ≤ o' ∧ o' ≤ (maxOrdinal : ℤ) then
        some (formatDate (fromOrdinal o'.toNat).1 (fromOrdinal o'.toNat).2.1
          (fromOrdinal o'.toNat).2.2)
      else none) = some (formatDate y' m' d') ∧
      isISODateShape (formatDate y' m' d') = true ∧
      parseDate (formatDate y' m' d') = some (y', m', d') ∧
      (toOrdinal y' m' d' : ℤ) = o' := by
  have hn1 : 1 ≤ o'.toNat := by omega
  have hn2 : o'.toNat ≤ maxOrdinal := by
    unfold maxOrdinal at h2 ⊢
    omega
  have hfo := toOrdinal_fromOrdinal o'.toNat hn1 hn2
  obtain ⟨hord, hy1, hy2, hm1, hm2, hd1, hd2⟩ := hfo
  have hrt := parseDate_formatDate (fromOrdinal o'.toNat).1
    (fromOrdinal o'.toNat).2.1 (fromOrdinal o'.toNat).2.2 hy1 hy2 hm1 hm2 hd1 hd2
  refine ⟨(fromOrdinal o'.toNat).1, (fromOrdinal o'.toNat).2.1,
    (fromOrdinal o'.toNat).2.2, ?_, hrt.2, hrt.1, ?_⟩
  · rw [if_pos ⟨h1, h2⟩]
  · rw [hord]
    omega

/-- C1: for every valid ISO `YYYY-MM-DD` input, `_convert_date` returns
the input date shifted by the fixed offset table (`week` → 7 days
earlier, `month` → 30 days earlier, `year` → 365 days earlier, `day` →
1 day later, unrecognized/absent period → unchanged), and the output is
again a valid ISO `YYYY-MM-DD` string.  The hypotheses require the
shifted date to be representable by `datetime.date` (otherwise the
Python code raises `OverflowError`). -/
theorem convert_date_offset_table (s : List Char) (y m d : ℕ) (p : Option String)
    (hparse : parseDate s = some (y, m, d))
    (h1 : 1 ≤ (toOrdinal y m d : ℤ) + periodOffset p)
    (h2 : (toOrdinal y m d : ℤ) + periodOffset p ≤ (maxOrdinal : ℤ)) :
    ∃ y' m' d',
      convert_date s p = some (formatDate y' m' d') ∧
      isISODateShape (formatDate y' m' d') = true ∧
      parseDate (formatDate y' m' d') = some (y', m', d') ∧
      (toOrdinal y' m' d' : ℤ) = (toOrdinal y m d : ℤ) + periodOffset p := by
  obtain ⟨hy1, hy2, hm1, hm2, hd1, hd2⟩ := parseDate_bounds hparse
  have hid : ∃ y' m' d',
      (some (formatDate y m d) : Option (List Char)) = some (formatDate y' m' d') ∧
      isISODateShape (formatDate y' m' d') = true ∧
      parseDate (formatDate y' m' d') = some (y', m', d') ∧
      (toOrdinal y' m' d' : ℤ) = (toOrdinal y m d : ℤ) + 0 := by
    have hrt := parseDate_formatDate y m d hy1 hy2 hm1 hm2 hd1 hd2
    exact ⟨y, m, d, rfl, hrt.2, hrt.1, by omega⟩
  rcases p with _ | q
  · simpa only [convert_date, hparse, periodOffset] using hid
  · by_cases hw : q = "week"
    · subst hw
      have hoff : periodOffset (some "week") = -7 := rfl
      rw [hoff] at h1 h2
      simp only [convert_date, hparse, if_pos rfl, hoff]
      have := emit_spec ((toOrdinal y m d : ℤ) - 7) (by omega) (by omega)
      simpa only [sub_eq_add_neg] using this
    · by_cases hmo : q = "month"
      · subst hmo
        have hoff : periodOffset (some "month") = -30 := rfl
        rw [hoff] at h1 h2
        simp only [convert_date, hparse, if_neg hw, if_pos rfl, hoff]
        have := emit_spec ((toOrdinal y m d : ℤ) - 30) (by omega) (by omega)
        simpa only [sub_eq_add_neg] using this
      · by_cases hye : q = "year"
        · subst hye
          have hoff : periodOffset (some "year") = -365 := rfl
          rw [hoff] at h1 h2
          simp only [convert_date, hparse, if_neg hw, if_neg hmo, if_pos rfl, hoff]
          have := emit_spec ((toOrdinal y m d : ℤ) - 365) (by omega) (by omega)
          simpa only [sub_eq_add_neg] using this
        · by_cases hda : q = "day"
          · subst hda
            have hoff : periodOffset (some "day") = 1 := rfl
            rw [hoff] at h1 h2
            simp only [convert_date, hparse, if_neg hw, if_neg hmo, if_neg hye,
              if_pos rfl, hoff]
            exact emit_spec ((toOrdinal y m d : ℤ) + 1) (by omega) (by omega)
          · have hoff := periodOffset_other q hw hmo hye hda
            rw [hoff] at h1 h2 ⊢
            simp only [convert_date, hparse, if_neg hw, if_neg hmo, if_neg hye,
              if_neg hda]
            exact hid

/-- Witness for C1 at the concrete input `2023-12-08` with period
`week`. -/
theorem convert_date_offset_table_witness :
    parseDate "2023-12-08".data = some (2023, 12, 8) ∧
    (∃ y' m' d',
      convert_date "2023-12-08".data (some "week") = some (formatDate y' m' d') ∧
      isISODateShape (formatDate y' m' d') = true ∧
      parseDate (formatDate y' m' d') = some (y', m', d') ∧
      (toOrdinal y' m' d' : ℤ) =
        (toOrdinal 2023 12 8 : ℤ) + periodOffset (some "week")) :=
  ⟨by decide, convert_date_offset_table "2023-12-08".data 2023 12 8 (some "week")
    (by decide) (by decide) (by decide)⟩

/-- C2 counterexample: the spec's worked example
`resolve("2023-12-08","week") == "2023-12-04"` is false on the code: a
week is 7 days, and `2023-12-08` minus 7 days is `2023-12-01`, which is
what `_convert_date` returns. -/
theorem convert_date_week_example_refuted :
    _convert_date "2023-12-08" (some "week") = some "2023-12-01" ∧
    (some "2023-12-01" : Option String) ≠ some "2023-12-04" := by decide

/-- C2 amended: the Date Resolver's actual values on the spec's example
inputs: `_convert_date("2023-12-08","week") = "2023-12-01"` (7 days
earlier, matching the offset table) and
`_convert_date("2023-12-08","day") = "2023-12-09"`. -/
theorem convert_date_worked_examples :
    _convert_date "2023-12-08" (some "week") = some "2023-12-01" ∧
    _convert_date "2023-12-08" (some "day") = some "2023-12-09" := by decide

/-! ## CSV loading (`load_data_from_csv`)

A CSV file is modelled as a list of rows, each with a `day` cell (spec
§6: a flat table with a `day` column) plus arbitrary further cells.
pandas compares `object`-dtype date strings lexicographically by code
point, which `strLe` mirrors.  The file system behind
`pd.read_csv` is an abstract function from paths to row lists. -/

/-- Python string `<=` (lexicographic by code point). -/
def strLe : List Char → List Char → Bool
  | [], _ => true
  | _ :: _, [] => false
  | a :: as, b :: bs =>
    if a < b then true else if b < a then false else strLe as bs

/-- One CSV row: its `day` cell plus the remaining cells. -/
structure CsvRow where
  day : String
  cells : List (String × String)
deriving DecidableEq

/-- Result of `load_data_from_csv`: printed diagnostics plus either the
returned frame (`some`) or a propagated exception (`none`). -/
structure CsvLoadResult where
  printed : List String
  result : Option (List CsvRow)
deriving DecidableEq

/-- Shallow embedding of `OuraDataHandler.load_data_from_csv`
(`oura_data_handler.py` lines 118-138): resolve `data_type` through
`local_data_paths` (`if not file_path` also rejects an empty path),
read the whole file, and filter on the `day` column with inclusive
bounds; `none` as `result` models a raised exception (invalid
`start_date` in `_convert_date`). -/
def load_data_from_csv (local_data_paths : List (String × String))
    (readCsv : String → List CsvRow) (data_type : String) (start_date : String)
    (end_date : Option String) (duration : Option String) : CsvLoadResult :=
  match local_data_paths.lookup data_type with
  | none => ⟨["Invalid data type for CSV!"], some []⟩
  | some fp =>
    if fp = "" then ⟨["Invalid data type for CSV!"], some []⟩
    else
      let df := readCsv fp
      match end_date with
      | none =>
        match convert_date start_date.data duration with
        | none => ⟨[], none⟩
        | some target =>
          ⟨[], some (df.filter (fun r =>
            strLe target r.day.data && strLe r.day.data start_date.data))⟩
      | some e =>
        ⟨[], some (df.filter (fun r =>
          strLe start_date.data r.day.data && strLe r.day.data e.data))⟩

/-- C3: for a mapped `data_type`, the loaded table consists of exactly
the file's rows whose `day` lies in the closed interval
`[resolved_start, start_date]` (when `end_date` is omitted;
`resolved_start` comes from the Date Resolver) or `[start_date,
end_date]` (when `end_date` is supplied); both bounds inclusive. -/
theorem load_data_from_csv_filters (paths : List (String × String))
    (readCsv : String → List CsvRow) (dt sd : String) (du : Option String)
    (fp : String) (target : List Char) (ed : String)
    (hmap : paths.lookup dt = some fp) (hfp : ¬ fp = "")
    (hconv : convert_date sd.data du = some target) :
    ((load_data_from_csv paths readCsv dt sd none du).result =
       some ((readCsv fp).filter (fun r =>
         strLe target r.day.data && strLe r.day.data sd.data)) ∧
     ∀ r, r ∈ ((load_data_from_csv paths readCsv dt sd none du).result.getD []) ↔
       r ∈ readCsv fp ∧ strLe target r.day.data = true ∧
         strLe r.day.data sd.data = true) ∧
    ((load_data_from_csv paths readCsv dt sd (some ed) du).result =
       some ((readCsv fp).filter (fun r =>
         strLe sd.data r.day.data && strLe r.day.data ed.data)) ∧
     ∀ r, r ∈ ((load_data_from_csv paths readCsv dt sd (some ed) du).result.getD []) ↔
       r ∈ readCsv fp ∧ strLe sd.data r.day.data = true ∧
         strLe r.day.data ed.data = true) := by
  simp only [load_data_from_csv, hmap, if_neg hfp, hconv]
  refine ⟨⟨trivial, ?_⟩, trivial, ?_⟩ <;>
    intro r <;>
    simp [List.mem_filter, Bool.and_eq_true]

/-- Witness for C3: a three-row file queried both ways; the boundary
rows (`day` equal to a bound) are included. -/
theorem load_data_from_csv_filters_witness :
    (([("daily_sleep", "p.csv")] : List (String × String)).lookup "daily_sleep" =
      some "p.csv") ∧
    (¬ ("p.csv" : String) = "") ∧
    convert_date ("2023-11-01" : String).data none = some ("2023-11-01" : String).data ∧
    (((load_data_from_csv [("daily_sleep", "p.csv")]
        (fun _ => [⟨"2023-10-31", []⟩, ⟨"2023-11-01", []⟩, ⟨"2023-11-02", []⟩])
        "daily_sleep" "2023-11-01" none none).result =
       some [⟨"2023-11-01", []⟩]) ∧
     ((load_data_from_csv [("daily_sleep", "p.csv")]
        (fun _ => [⟨"2023-10-31", []⟩, ⟨"2023-11-01", []⟩, ⟨"2023-11-02", []⟩])
        "daily_sleep" "2023-11-01" (some "2023-11-02") none).result =
       some [⟨"2023-11-01", []⟩, ⟨"2023-11-02", []⟩])) := by
  have h := load_data_from_csv_filters [("daily_sleep", "p.csv")]
    (fun _ => [⟨"2023-10-31", []⟩, ⟨"2023-11-01", []⟩, ⟨"2023-11-02", []⟩])
    "daily_sleep" "2023-11-01" none "p.csv" ("2023-11-01" : String).data
    "2023-11-02" (by decide) (by decide) (by decide)
  refine ⟨by decide, by decide, by decide, ?_, ?_⟩
  · rw [h.1.1]
    decide
  · rw [h.2.1]
    decide

/-! ## API fetching (`fetch_data_from_api`) and DataFrames

JSON payload rows are association lists of scalar values or one-level
nested objects of scalars (the shapes the handler's endpoints produce:
`contributors` and `spo2_percentage` nest exactly one level).  A
DataFrame is a column-name list plus rows of cells; a missing cell
(pandas `NaN` fill for a key absent from some record) is `none`.
The HTTP layer (`requests.get` + `.json().get('data', [])`) is an
abstract function from the endpoint and query parameters to the payload
row list. -/

/-- A scalar JSON value. -/
inductive Scalar where
  | str (v : String)
  | num (v : ℚ)
deriving DecidableEq

/-- A JSON value of a payload record field: a scalar or a one-level
nested object of scalars. -/
inductive Value where
  | sc (v : Scalar)
  | obj (fields : List (String × Scalar))
deriving DecidableEq

/-- One payload record (`dict` in the JSON body's `data` list). -/
abbrev JsonRow := List (String × Value)

/-- A pandas DataFrame: column labels plus one cell list per row
(`none` = `NaN`). -/
structure Frame where
  cols : List String
  rows : List (List (Option Value))
deriving DecidableEq

/-- `pd.DataFrame()`. -/
def Frame.emptyFrame : Frame := ⟨[], []⟩

/-- `df.empty`: true iff either axis has length 0. -/
def Frame.isEmpty (f : Frame) : Bool := f.rows.isEmpty || f.cols.isEmpty

/-- The keys of one payload record. -/
def rowKeys (r : JsonRow) : List String := r.map Prod.fst

/-- Append a key if not already present (first-appearance order). -/
def insertKey (acc : List String) (k : String) : List String :=
  if k ∈ acc then acc else acc ++ [k]

/-- Column labels of `pd.DataFrame.from_dict(list-of-dicts)`: the union
of the record keys in order of first appearance. -/
def unionKeys (rows : List JsonRow) : List String :=
  rows.foldl (fun acc r => (rowKeys r).foldl insertKey acc) []

/-- `pd.DataFrame.from_dict(rows, orient='columns')` on a list of
records: one column per key, `NaN` (`none`) where a record lacks it. -/
def fromDict (rows : List JsonRow) : Frame :=
  ⟨unionKeys rows, rows.map (fun r => (unionKeys rows).map (fun c => r.lookup c))⟩

/-- The fixed allow-list of `fetch_data_from_api`. -/
def validDataTypes : List String :=
  ["sleep", "daily_sleep", "daily_activity", "daily_readiness", "daily_spo2",
   "heartrate", "daily_stress"]

/-- How Python prints the `filename` argument inside an f-string. -/
def filenameRepr : Option String → String
  | some fn => fn
  | none => "None"

/-- The query-parameter window of `fetch_data_from_api`
(`oura_data_handler.py` lines 74-84): with `end_date` omitted the start
is resolved from `duration` by `_convert_date` and the window keys are
date-level, except for `heartrate` which uses datetime-level keys with
the end resolved one day after `start_date`; with `end_date` supplied
the date-level keys carry the two dates unchanged.  `none` models a
propagated exception from `_convert_date`. -/
def fetchParams (data_type start_date : String) (end_date duration : Option String) :
    Option (List (String × String)) :=
  match end_date with
  | none =>
    match convert_date start_date.data duration with
    | none => none
    | some new_start_day =>
      if ¬ data_type = "heartrate" then
        some [("start_date", String.mk new_start_day), ("end_date", start_date)]
      else
        match convert_date start_date.data (some "day") with
        | none => none
        | some new_end_day =>
          some [("start_datetime", String.mk new_start_day),
                ("end_datetime", String.mk new_end_day)]
  | some e => some [("start_date", start_date), ("end_date", e)]

/-- Python return values: a propagated exception, a bare `return`
(`None`), or a value. -/
inductive PyRet (α : Type) where
  | raised
  | retNone
  | val (a : α)
deriving DecidableEq

/-- Observable effects of one `fetch_data_from_api` call: the returned
value, the printed diagnostics, the query parameters of the network
request (`none` when no request was made), and the file write performed
by `df.to_csv` (`none` when no file was written; `to_csv(None)` returns
a CSV string without touching the file system). -/
structure FetchEffects where
  ret : PyRet Frame
  printed : List String
  request : Option (List (String × String))
  written : Option (String × Frame)
deriving DecidableEq

/-- Shallow embedding of `OuraDataHandler.fetch_data_from_api`
(`oura_data_handler.py` lines 49-104). -/
def fetch_data_from_api (net : String → List (String × String) → List JsonRow)
    (access_token data_type start_date : String) (end_date duration : Option String)
    (save_file : Bool) (filename : Option String) : FetchEffects :=
  if access_token = "" then
    ⟨.val Frame.emptyFrame, ["Invalid token!"], none, none⟩
  else if ¬ data_type ∈ validDataTypes then
    ⟨.val Frame.emptyFrame, ["Invalid data type!"], none, none⟩
  else
    match fetchParams data_type start_date end_date duration with
    | none => ⟨.raised, ["Requesting " ++ data_type ++ " data... "], none, none⟩
    | some params =>
      let payload := net data_type params
      if payload.isEmpty then
        ⟨.val Frame.emptyFrame,
         ["Requesting " ++ data_type ++ " data... ", "No data received."],
         some params, none⟩
      else
        let df := fromDict payload
        if save_file then
          if df.isEmpty then
            ⟨.retNone,
             ["Requesting " ++ data_type ++ " data... ", "done!",
              "No data available to save."],
             some params, none⟩
          else
            ⟨.val df,
             ["Requesting " ++ data_type ++ " data... ", "done!",
              "Data successfully saved to " ++ filenameRepr filename],
             some params,
             match filename with
             | some fn => some (fn, df)
             | none => none⟩
        else
          ⟨.val df,
           ["Requesting " ++ data_type ++ " data... ", "done!",
            "Data successfully saved to " ++ filenameRepr filename],
           some params, none⟩

/-! ## Deep-sleep normalization (`get_deep_sleep_duration`) -/

/-- `df.drop(columns=[c])`: removes every column labelled `c`, raising
(`none`) when there is none. -/
def Frame.dropColAll (f : Frame) (c : String) : Option Frame :=
  if c ∈ f.cols then
    some ⟨f.cols.filter (fun x => ! (x == c)),
          f.rows.map (fun r =>
            (((f.cols.zip r).filter (fun q => ! (q.1 == c))).map Prod.snd))⟩
  else none

/-- `df[c]` for a single-occurrence label: the cell list of the first
column labelled `c`, `none` (KeyError) when absent. -/
def Frame.getCol (f : Frame) (c : String) : Option (List (Option Value)) :=
  if c ∈ f.cols then
    some (f.rows.map (fun r => ((f.cols.zip r).lookup c).getD none))
  else none

/-- The nested object held by a cell, if any. -/
def asObj : Option Value → Option (List (String × Scalar))
  | some (.obj o) => some o
  | _ => none

/-- `pd.json_normalize(column-of-dicts)`: a frame whose columns are the
union of the nested keys; raises (`none`) when a cell is not a dict. -/
def json_normalize (cells : List (Option Value)) : Option Frame :=
  if cells.all (fun v => (asObj v).isSome) then
    some (fromDict (cells.map (fun v =>
      ((asObj v).getD []).map (fun kv => (kv.1, Value.sc kv.2)))))
  else none

/-- `pd.concat([a, b], axis=1)` for frames with the same fresh range
index (equal row counts). -/
def Frame.hconcat (a b : Frame) : Frame :=
  ⟨a.cols ++ b.cols, List.zipWith (fun r1 r2 => r1 ++ r2) a.rows b.rows⟩

/-- `df.rename(columns={src: dst})`: relabels every matching column. -/
def Frame.rename (f : Frame) (src dst : String) : Frame :=
  ⟨f.cols.map (fun c => if c = src then dst else c), f.rows⟩

/-- The API-branch reshaping of `get_deep_sleep_duration`
(`oura_data_handler.py` lines 221-222):
`pd.concat([df.drop(columns=['contributors']),
pd.json_normalize(df['contributors'])], axis=1)` followed by renaming
`deep_sleep` to `contributors_deep_sleep`. -/
def normalize_deep_sleep (df : Frame) : Option Frame :=
  match df.dropColAll "contributors", df.getCol "contributors" with
  | some dropped, some cells =>
    match json_normalize cells with
    | none => none
    | some flat => some ((dropped.hconcat flat).rename "deep_sleep" "contributors_deep_sleep")
  | _, _ => none

/-- Observable effects of one plotting entry point run: printed
diagnostics, the Python return value (these functions return `None` on
every completed path), and the frame handed to `plot_data`, if any. -/
structure ViewEffects where
  printed : List String
  outcome : PyRet Frame
  plotted : Option Frame
deriving DecidableEq

/-- Shallow embedding of `OuraDataHandler.get_deep_sleep_duration`
(`oura_data_handler.py` lines 206-231).  The CSV branch's loader result
is abstracted to a frame-producing thunk (`none` = raised); its own
contract is verified separately at the row-list level
(`load_data_from_csv`). -/
def get_deep_sleep_duration (net : String → List (String × String) → List JsonRow)
    (access_token : String) (loadCsvFrame : Unit → Option Frame)
    (source start_date : String) (end_date duration : Option String) : ViewEffects :=
  if source = "csv" then
    match loadCsvFrame () with
    | none => ⟨[], .raised, none⟩
    | some df =>
      if ¬ df.isEmpty then ⟨[], .retNone, some df⟩
      else ⟨["No data available for plotting."], .retNone, none⟩
  else if source = "api" then
    let fr := fetch_data_from_api net access_token "daily_sleep" start_date
      end_date duration false none
    match fr.ret with
    | .raised => ⟨fr.printed, .raised, none⟩
    | .retNone => ⟨fr.printed, .raised, none⟩
    | .val df =>
      if ¬ df.isEmpty then
        match normalize_deep_sleep df with
        | none => ⟨fr.printed, .raised, none⟩
        | some df2 =>
          if ¬ df2.isEmpty then ⟨fr.printed, .retNone, some df2⟩
          else ⟨fr.printed ++ ["No data available for plotting."], .retNone, none⟩
      else ⟨fr.printed ++ ["No data available for plotting."], .retNone, none⟩
  else ⟨["Invalid data source!"], .retNone, none⟩

/-- C4 (amended): a missing access token, an API `data_type` outside
the allow-list, and a CSV `data_type` with no configured file path each
produce an empty Table plus a printed diagnostic and no exception — the
API cases before any network request (`request = none`, and the
abstract `net` is never applied); an invalid source tag produces a
printed diagnostic and an early `return` that yields no Table at all
(the Python function returns `None`). -/
theorem config_errors_soft_fail
    (net : String → List (String × String) → List JsonRow)
    (tok dt sd src : String) (ed du : Option String) (sf : Bool) (fn : Option String)
    (paths : List (String × String)) (readCsv : String → List CsvRow)
    (loadCsvFrame : Unit → Option Frame)
    (htok : ¬ tok = "") (hdt : ¬ dt ∈ validDataTypes)
    (hsrc1 : ¬ src = "csv") (hsrc2 : ¬ src = "api")
    (hmap : paths.lookup dt = none) :
    fetch_data_from_api net "" dt sd ed du sf fn =
      ⟨.val Frame.emptyFrame, ["Invalid token!"], none, none⟩ ∧
    fetch_data_from_api net tok dt sd ed du sf fn =
      ⟨.val Frame.emptyFrame, ["Invalid data type!"], none, none⟩ ∧
    load_data_from_csv paths readCsv dt sd ed du =
      ⟨["Invalid data type for CSV!"], some []⟩ ∧
    get_deep_sleep_duration net tok loadCsvFrame src sd ed du =
      ⟨["Invalid data source!"], .retNone, none⟩ := by
  refine ⟨?_, ?_, ?_, ?_⟩
  · simp [fetch_data_from_api]
  · simp [fetch_data_from_api, htok, hdt]
  · simp [load_data_from_csv, hmap]
  · simp [get_deep_sleep_duration, hsrc1, hsrc2]

/-- Witness for C4 at concrete configuration errors. -/
theorem config_errors_soft_fail_witness :
    fetch_data_from_api (fun _ _ => []) "" "bogus" "2023-11-01" none none false none =
      ⟨.val Frame.emptyFrame, ["Invalid token!"], none, none⟩ ∧
    fetch_data_from_api (fun _ _ => []) "t" "bogus" "2023-11-01" none none false none =
      ⟨.val Frame.emptyFrame, ["Invalid data type!"], none, none⟩ ∧
    load_data_from_csv [] (fun _ => []) "bogus" "2023-11-01" none none =
      ⟨["Invalid data type for CSV!"], some []⟩ ∧
    get_deep_sleep_duration (fun _ _ => []) "t" (fun _ => none) "file" "2023-11-01"
        none none =
      ⟨["Invalid data source!"], .retNone, none⟩ :=
  config_errors_soft_fail (fun _ _ => []) "t" "bogus" "2023-11-01" "file" none none
    false none [] (fun _ => []) (fun _ => none)
    (by decide) (by decide) (by decide) (by decide) (by decide)

/-- C4 counterexample: an invalid source tag does not "result in an
empty Table": the run prints the diagnostic and produces no Table at
all — the Python return value is `None`, not an empty DataFrame, and
nothing reaches the plotting stage. -/
theorem invalid_source_yields_no_table :
    (get_deep_sleep_duration (fun _ _ => []) "tok" (fun _ => none) "file"
        "2023-11-01" none none).printed = ["Invalid data source!"] ∧
    (get_deep_sleep_duration (fun _ _ => []) "tok" (fun _ => none) "file"
        "2023-11-01" none none).outcome = .retNone ∧
    ¬ (get_deep_sleep_duration (fun _ _ => []) "tok" (fun _ => none) "file"
        "2023-11-01" none none).outcome = .val Frame.emptyFrame ∧
    (get_deep_sleep_duration (fun _ _ => []) "tok" (fun _ => none) "file"
        "2023-11-01" none none).plotted = none := by decide

/-- Whenever the parameter window is built, the request carries exactly
those parameters, regardless of what the network returns and of the
save options. -/
theorem fetch_request_of_params
    (net : String → List (String × String) → List JsonRow)
    (tok dt sd : String) (ed du : Option String) (sf : Bool) (fn : Option String)
    (params : List (String × String))
    (htok : ¬ tok = "") (hin : dt ∈ validDataTypes)
    (hpar : fetchParams dt sd ed du = some params) :
    (fetch_data_from_api net tok dt sd ed du sf fn).request = some params := by
  simp only [fetch_data_from_api, if_neg htok, hpar]
  rw [if_neg (not_not_intro hin)]
  split
  · rfl
  · split
    · split
      · rfl
      · rfl
    · rfl

/-- C5 (amended): with `end_date` omitted, a heart-rate fetch uses the
datetime-level window keys with the end resolved one day past
`start_date` (via the Date Resolver's `"day"` tag, i.e. +1 day by C1),
while every other valid data type uses date-level keys; with `end_date`
supplied, heart rate uses the same date-level keys as everything else —
the point on which the original claim overstates. -/
theorem heartrate_window_keys
    (net : String → List (String × String) → List JsonRow)
    (tok sd : String) (du : Option String) (sf : Bool) (fn : Option String)
    (ns ne : List Char) (dt e : String)
    (htok : ¬ tok = "")
    (hns : convert_date sd.data du = some ns)
    (hne : convert_date sd.data (some "day") = some ne)
    (hdt : dt ∈ validDataTypes) (hdthr : ¬ dt = "heartrate") :
    (fetch_data_from_api net tok "heartrate" sd none du sf fn).request =
      some [("start_datetime", String.mk ns), ("end_datetime", String.mk ne)] ∧
    (fetch_data_from_api net tok dt sd none du sf fn).request =
      some [("start_date", String.mk ns), ("end_date", sd)] ∧
    (fetch_data_from_api net tok "heartrate" sd (some e) du sf fn).request =
      some [("start_date", sd), ("end_date", e)] := by
  refine ⟨?_, ?_, ?_⟩
  · apply fetch_request_of_params net tok "heartrate" sd none du sf fn _ htok (by decide)
    simp [fetchParams, hns, hne]
  · apply fetch_request_of_params net tok dt sd none du sf fn _ htok hdt
    simp [fetchParams, hns, hdthr]
  · apply fetch_request_of_params net tok "heartrate" sd (some e) du sf fn _ htok (by decide)
    simp [fetchParams]

/-- Witness for C5 at concrete dates (duration absent, so the resolved
start is the start date itself). -/
theorem heartrate_window_keys_witness :
    (fetch_data_from_api (fun _ _ => []) "t" "heartrate" "2023-11-01" none none
        false none).request =
      some [("start_datetime", "2023-11-01"), ("end_datetime", "2023-11-02")] ∧
    (fetch_data_from_api (fun _ _ => []) "t" "sleep" "2023-11-01" none none
        false none).request =
      some [("start_date", "2023-11-01"), ("end_date", "2023-11-01")] ∧
    (fetch_data_from_api (fun _ _ => []) "t" "heartrate" "2023-11-01"
        (some "2023-11-05") none false none).request =
      some [("start_date", "2023-11-01"), ("end_date", "2023-11-05")] :=
  heartrate_window_keys (fun _ _ => []) "t" "2023-11-01" none false none
    ("2023-11-01" : String).data ("2023-11-02" : String).data "sleep" "2023-11-05"
    (by decide) (by decide) (by decide) (by decide) (by decide)

/-- C5 counterexample: a heart-rate fetch with `end_date` supplied uses
the date-level keys, not the datetime-level ones the claim asserts for
every heart-rate fetch. -/
theorem heartrate_with_end_date_uses_date_keys :
    (fetch_data_from_api (fun _ _ => []) "t" "heartrate" "2023-12-08"
        (some "2023-12-10") none false none).request =
      some [("start_date", "2023-12-08"), ("end_date", "2023-12-10")] ∧
    ¬ ([("start_date", "2023-12-08"), ("end_date", "2023-12-10")].map Prod.fst =
       ["start_datetime", "end_datetime"]) := by decide

/-- C10 (amended): on a fetch that reaches a non-empty payload whose
frame is non-empty, no file is written when `save_file` is false, yet
the diagnostic `Data successfully saved to {filename}` is printed
anyway; with `save_file` true a file is written only when a filename
was actually supplied (`to_csv(None)` — the default — returns a string
and writes nothing), and the same success message is printed in every
case, so the message never implies a write happened. -/
theorem save_file_frame_effect
    (net : String → List (String × String) → List JsonRow)
    (tok dt sd : String) (ed du : Option String) (fn : Option String)
    (params : List (String × String)) (payload : List JsonRow)
    (htok : ¬ tok = "") (hin : dt ∈ validDataTypes)
    (hpar : fetchParams dt sd ed du = some params)
    (hnet : net dt params = payload)
    (hpay : ¬ payload.isEmpty = true)
    (hdf : ¬ (fromDict payload).isEmpty = true) :
    (fetch_data_from_api net tok dt sd ed du false fn).written = none ∧
    (fetch_data_from_api net tok dt sd ed du false fn).printed =
      ["Requesting " ++ dt ++ " data... ", "done!",
       "Data successfully saved to " ++ filenameRepr fn] ∧
    ((fetch_data_from_api net tok dt sd ed du true fn).written =
      match fn with
      | some f => some (f, fromDict payload)
      | none => none) ∧
    (fetch_data_from_api net tok dt sd ed du true fn).printed =
      ["Requesting " ++ dt ++ " data... ", "done!",
       "Data successfully saved to " ++ filenameRepr fn] := by
  refine ⟨?_, ?_, ?_, ?_⟩ <;>
    · simp only [fetch_data_from_api, if_neg htok, hpar]
      rw [if_neg (not_not_intro hin)]
      simp [hnet, hpay, hdf]

/-- Witness for C10 with a one-row payload and a supplied filename. -/
theorem save_file_frame_effect_witness :
    (fetch_data_from_api (fun _ _ => [[("day", Value.sc (Scalar.str "2023-11-01"))]])
        "t" "daily_sleep" "2023-11-01" (some "2023-11-02") none false
        (some "out.csv")).written = none ∧
    (fetch_data_from_api (fun _ _ => [[("day", Value.sc (Scalar.str "2023-11-01"))]])
        "t" "daily_sleep" "2023-11-01" (some "2023-11-02") none false
        (some "out.csv")).printed =
      ["Requesting " ++ "daily_sleep" ++ " data... ", "done!",
       "Data successfully saved to " ++ filenameRepr (some "out.csv")] ∧
    ((fetch_data_from_api (fun _ _ => [[("day", Value.sc (Scalar.str "2023-11-01"))]])
        "t" "daily_sleep" "2023-11-01" (some "2023-11-02") none true
        (some "out.csv")).written =
      match (some "out.csv" : Option String) with
      | some f => some (f, fromDict [[("day", Value.sc (Scalar.str "2023-11-01"))]])
      | none => none) ∧
    (fetch_data_from_api (fun _ _ => [[("day", Value.sc (Scalar.str "2023-11-01"))]])
        "t" "daily_sleep" "2023-11-01" (some "2023-11-02") none true
        (some "out.csv")).printed =
      ["Requesting " ++ "daily_sleep" ++ " data... ", "done!",
       "Data successfully saved to " ++ filenameRepr (some "out.csv")] :=
  save_file_frame_effect (fun _ _ => [[("day", Value.sc (Scalar.str "2023-11-01"))]])
    "t" "daily_sleep" "2023-11-01" (some "2023-11-02") none (some "out.csv")
    [("start_date", "2023-11-01"), ("end_date", "2023-11-02")]
    [[("day", Value.sc (Scalar.str "2023-11-01"))]]
    (by decide) (by decide) (by decide) (by decide) (by decide) (by decide)

/-- C10 counterexample: `save_file = true` with the default
`filename = None` on a non-empty payload writes no file (so "a CSV file
is written if and only if `save_file` is true" fails), while the
message still claims `Data successfully saved to None`. -/
theorem save_file_iff_refuted :
    (fetch_data_from_api (fun _ _ => [[("day", Value.sc (Scalar.str "2023-11-01"))]])
        "t" "daily_sleep" "2023-11-01" (some "2023-11-02") none true none).written =
      none ∧
    (fetch_data_from_api (fun _ _ => [[("day", Value.sc (Scalar.str "2023-11-01"))]])
        "t" "daily_sleep" "2023-11-01" (some "2023-11-02") none true none).printed =
      ["Requesting daily_sleep data... ", "done!",
       "Data successfully saved to None"] := by decide

theorem mem_foldl_insertKey (ks : List String) (acc : List String) (k : String) :
    k ∈ ks.foldl insertKey acc ↔ k ∈ acc ∨ k ∈ ks := by
  induction ks generalizing acc with
  | nil => simp
  | cons a t ih =>
    rw [List.foldl_cons, ih]
    by_cases ha : a ∈ acc <;>
      simp only [insertKey, ha, if_true, if_false, List.mem_cons, List.mem_append,
        ite_true, ite_false, List.mem_singleton, List.not_mem_nil, or_false]
    · constructor
      · rintro (h | h)
        · exact Or.inl h
        · exact Or.inr (Or.inr h)
      · rintro (h | h | h)
        · exact Or.inl h
        · exact Or.inl (by rwa [h])
        · exact Or.inr h
    · constructor
      · rintro ((h | h) | h)
        · exact Or.inl h
        · exact Or.inr (Or.inl h)
        · exact Or.inr (Or.inr h)
      · rintro (h | h | h)
        · exact Or.inl (Or.inl h)
        · exact Or.inl (Or.inr h)
        · exact Or.inr h

theorem mem_unionKeys_aux (rows : List JsonRow) (acc : List String) (k : String) :
    k ∈ rows.foldl (fun a r => (rowKeys r).foldl insertKey a) acc ↔
      k ∈ acc ∨ ∃ r ∈ rows, k ∈ rowKeys r := by
  induction rows generalizing acc with
  | nil => simp
  | cons r t ih =>
    rw [List.foldl_cons, ih, mem_foldl_insertKey]
    simp only [List.mem_cons]
    constructor
    · rintro ((h | h) | ⟨r1, hr1, hk1⟩)
      · exact Or.inl h
      · exact Or.inr ⟨r, Or.inl rfl, h⟩
      · exact Or.inr ⟨r1, Or.inr hr1, hk1⟩
    · rintro (h | ⟨r1, (rfl | hr1), hk1⟩)
      · exact Or.inl (Or.inl h)
      · exact Or.inl (Or.inr hk1)
      · exact Or.inr ⟨r1, hr1, hk1⟩

theorem mem_unionKeys (rows : List JsonRow) (k : String) :
    k ∈ unionKeys rows ↔ ∃ r ∈ rows, k ∈ rowKeys r := by
  unfold unionKeys
  rw [mem_unionKeys_aux]
  simp

theorem lookup_isSome_of_mem {β : Type} (r : List (String × β)) (k : String)
    (h : k ∈ r.map Prod.fst) :
    ∃ v, r.lookup k = some v := by
  induction r with
  | nil => simp at h
  | cons kv t ih =>
    obtain ⟨k1, v1⟩ := kv
    simp only [List.map_cons, List.mem_cons] at h
    by_cases he : k = k1
    · have hb : (k == k1) = true := by simp [he]
      exact ⟨v1, by simp [List.lookup, hb]⟩
    · have hb : (k == k1) = false := by simp [he]
      obtain h | h := h
      · exact absurd h he
      · obtain ⟨v, hv⟩ := ih h
        exact ⟨v, by simp [List.lookup, hb, hv]⟩

theorem mem_keys_of_lookup_some {β : Type} (r : List (String × β)) (k : String) (v : β)
    (h : r.lookup k = some v) : k ∈ r.map Prod.fst := by
  induction r with
  | nil => simp [List.lookup] at h
  | cons kv t ih =>
    obtain ⟨k1, v1⟩ := kv
    simp only [List.map_cons, List.mem_cons]
    by_cases he : k = k1
    · exact Or.inl he
    · have hb : (k == k1) = false := by simp [he]
      refine Or.inr (ih ?_)
      simpa [List.lookup, hb] using h

theorem zip_map_lookup (cols : List String) (g : String → Option Value) (c : String)
    (h : c ∈ cols) :
    (cols.zip (cols.map g)).lookup c = some (g c) := by
  induction cols with
  | nil => simp at h
  | cons a t ih =>
    simp only [List.map_cons, List.zip_cons_cons]
    by_cases he : c = a
    · subst he
      simp [List.lookup]
    · have hb : (c == a) = false := by simp [he]
      have hm : c ∈ t := by
        rcases List.mem_cons.mp h with h1 | h1
        · exact absurd h1 he
        · exact h1
      simp [List.lookup, hb, ih hm]

theorem filter_zip_map (cols : List String) (g : String → Option Value) (c : String) :
    ((cols.zip (cols.map g)).filter (fun q => ! (q.1 == c))).map Prod.snd =
      (cols.filter (fun x => ! (x == c))).map g := by
  induction cols with
  | nil => rfl
  | cons a t ih =>
    simp only [List.map_cons, List.zip_cons_cons, List.filter_cons]
    cases hb : a == c <;> simp [hb, ih]

theorem lookup_map_scalar (r : List (String × Scalar)) (k : String) :
    (r.map (fun kv => (kv.1, Value.sc kv.2))).lookup k = (r.lookup k).map Value.sc := by
  induction r with
  | nil => rfl
  | cons kv t ih =>
    obtain ⟨k1, v1⟩ := kv
    simp only [List.map_cons]
    cases hb : k == k1 <;> simp [List.lookup, hb, ih]

theorem zipWith_append_cell (l1 l2 : List (List (Option Value))) (i : ℕ)
    (h1 : i < l1.length) (h2 : i < l2.length) :
    (List.zipWith (fun r1 r2 => r1 ++ r2) l1 l2)[i]? =
      some (l1.get ⟨i, h1⟩ ++ l2.get ⟨i, h2⟩) := by
  induction l1 generalizing l2 i with
  | nil => simp at h1
  | cons a t ih =>
    cases l2 with
    | nil => simp at h2
    | cons b s =>
      cases i with
      | zero => simp [List.zipWith_cons_cons]
      | succ n =>
        simp only [List.zipWith_cons_cons, List.getElem?_cons_succ]
        have := ih s n (by simpa using h1) (by simpa using h2)
        simpa using this

theorem zipWith_append_length (l1 l2 : List (List (Option Value))) :
    (List.zipWith (fun r1 r2 => r1 ++ r2) l1 l2).length =
      min l1.length l2.length := by
  simp [List.length_zipWith]

theorem fromDict_dropColAll (P : List JsonRow) (c : String) (h : c ∈ unionKeys P) :
    (fromDict P).dropColAll c =
      some ⟨(unionKeys P).filter (fun x => ! (x == c)),
            P.map (fun r => ((unionKeys P).filter (fun x => ! (x == c))).map
              (fun k => r.lookup k))⟩ := by
  unfold Frame.dropColAll fromDict
  rw [if_pos h]
  refine congrArg some (congrArg (Frame.mk _) ?_)
  rw [List.map_map]
  refine List.map_congr_left (fun r hr => ?_)
  exact filter_zip_map (unionKeys P) (fun k => r.lookup k) c

theorem fromDict_getCol (P : List JsonRow) (c : String) (h : c ∈ unionKeys P) :
    (fromDict P).getCol c = some (P.map (fun r => r.lookup c)) := by
  unfold Frame.getCol fromDict
  rw [if_pos h, List.map_map]
  refine congrArg some (List.map_congr_left (fun r hr => ?_))
  simp only [Function.comp]
  rw [zip_map_lookup (unionKeys P) (fun k => r.lookup k) c h]
  rfl

theorem json_normalize_of_objs (os : List (List (String × Scalar))) :
    json_normalize (os.map (fun o => some (Value.obj o))) =
      some (fromDict (os.map (fun o => o.map (fun kv => (kv.1, Value.sc kv.2))))) := by
  have hall : ((os.map (fun o => some (Value.obj o))).all
      (fun v => (asObj v).isSome)) = true := by
    rw [List.all_eq_true]
    intro v hv
    obtain ⟨o, ho, rfl⟩ := List.mem_map.mp hv
    rfl
  unfold json_normalize
  rw [if_pos hall, List.map_map]
  refine congrArg some (congrArg fromDict (List.map_congr_left (fun o ho => ?_)))
  simp [Function.comp, asObj]

/-- The renaming applied by `get_deep_sleep_duration`. -/
def renameDS (c : String) : String :=
  if c = "deep_sleep" then "contributors_deep_sleep" else c

/-- Core of C6: on a payload whose rows all carry a nested
`contributors` object (with scalar fields, one of them `deep_sleep`,
and none itself named `contributors`), the reshaping of
`get_deep_sleep_duration` removes the `contributors` column, lifts the
nested fields to top-level columns, and produces a column labelled
`contributors_deep_sleep` holding each row's nested `deep_sleep`
value. -/
theorem append_map_getElem (DC FC : List String) (f g : String → Option Value)
    (idx : ℕ) (hlt : idx < FC.length) :
    ((DC.map f) ++ (FC.map g))[DC.length + idx]? = some (g (FC.get ⟨idx, hlt⟩)) := by
  rw [List.getElem?_append_right (by simp)]
  simp [List.getElem?_map, List.getElem?_eq_getElem hlt, List.get_eq_getElem]

theorem normalize_deep_sleep_spec (P : List JsonRow)
    (oF : JsonRow → List (String × Scalar)) (xF : JsonRow → Scalar)
    (hP : P ≠ [])
    (hcontr : ∀ r ∈ P, r.lookup "contributors" = some (Value.obj (oF r)))
    (hds : ∀ r ∈ P, (oF r).lookup "deep_sleep" = some (xF r))
    (hnocl : ∀ r ∈ P, ¬ "contributors" ∈ (oF r).map Prod.fst) :
    ∃ F : Frame,
      normalize_deep_sleep (fromDict P) = some F ∧
      F.isEmpty = false ∧
      ¬ "contributors" ∈ F.cols ∧
      (∃ j : ℕ, F.cols[j]? = some "contributors_deep_sleep" ∧
        ∀ i (hi : i < P.length),
          (F.rows[i]?.bind (fun row => row[j]?)) =
            some (some (Value.sc (xF (P.get ⟨i, hi⟩))))) ∧
      (∀ r ∈ P, ∀ kv ∈ oF r, ¬ kv.1 = "deep_sleep" → kv.1 ∈ F.cols) := by
  obtain ⟨r0, hr0⟩ := List.exists_mem_of_ne_nil P hP
  have hcmem : "contributors" ∈ unionKeys P := by
    rw [mem_unionKeys]
    exact ⟨r0, hr0, mem_keys_of_lookup_some _ _ _ (hcontr r0 hr0)⟩
  have hdrop := fromDict_dropColAll P "contributors" hcmem
  have hget0 := fromDict_getCol P "contributors" hcmem
  have hcells : P.map (fun r => r.lookup "contributors") =
      (P.map oF).map (fun o => some (Value.obj o)) := by
    rw [List.map_map]
    refine List.map_congr_left (fun r hr => ?_)
    simpa [Function.comp] using hcontr r hr
  have hget : (fromDict P).getCol "contributors" =
      some ((P.map oF).map (fun o => some (Value.obj o))) := by
    rw [hget0, hcells]
  have hnorm := json_normalize_of_objs (P.map oF)
  have hobjs : (P.map oF).map (fun o => o.map (fun kv => (kv.1, Value.sc kv.2))) =
      P.map (fun r => (oF r).map (fun kv => (kv.1, Value.sc kv.2))) := by
    rw [List.map_map]
    rfl
  rw [hobjs] at hnorm
  set DC : List String :=
    (unionKeys P).filter (fun x => ! (x == "contributors")) with hDC
  set OBJ : List JsonRow :=
    P.map (fun r => (oF r).map (fun kv => (kv.1, Value.sc kv.2))) with hOBJ
  set FC : List String := unionKeys OBJ with hFC
  have hdsmem : "deep_sleep" ∈ FC := by
    rw [hFC, hOBJ, mem_unionKeys]
    refine ⟨(oF r0).map (fun kv => (kv.1, Value.sc kv.2)),
      List.mem_map_of_mem _ hr0, ?_⟩
    unfold rowKeys
    rw [List.map_map]
    have hh := mem_keys_of_lookup_some _ _ _ (hds r0 hr0)
    simpa [Function.comp] using hh
  refine ⟨⟨(DC ++ FC).map renameDS,
      List.zipWith (fun r1 r2 => r1 ++ r2)
        (P.map (fun r => DC.map (fun k => r.lookup k)))
        (OBJ.map (fun r2 => FC.map (fun k => r2.lookup k)))⟩,
    ?_, ?_, ?_, ?_, ?_⟩
  · -- the run of `normalize_deep_sleep` itself
    unfold normalize_deep_sleep
    rw [hdrop, hget]
    dsimp only
    rw [hnorm]
    rfl
  · -- the normalized frame is non-empty
    have hrowsne : (List.zipWith (fun r1 r2 => r1 ++ r2)
        (P.map (fun r => DC.map (fun k => r.lookup k)))
        (OBJ.map (fun r2 => FC.map (fun k => r2.lookup k)))).length = P.length := by
      rw [zipWith_append_length]
      simp [hOBJ]
    unfold Frame.isEmpty
    simp only [Bool.or_eq_false_iff]
    constructor
    · have hne : (List.zipWith (fun r1 r2 => r1 ++ r2)
          (P.map (fun r => DC.map (fun k => r.lookup k)))
          (OBJ.map (fun r2 => FC.map (fun k => r2.lookup k)))) ≠ [] := by
        intro hnil
        rw [hnil] at hrowsne
        simp only [List.length_nil] at hrowsne
        exact hP (List.length_eq_zero.mp hrowsne.symm)
      simpa [List.isEmpty_iff] using hne
    · have hne : ((DC ++ FC).map renameDS) ≠ [] := by
        simp only [ne_eq, List.map_eq_nil_iff, List.append_eq_nil]
        rintro ⟨h1, h2⟩
        rw [h2] at hdsmem
        simp at hdsmem
      simpa [List.isEmpty_iff] using hne
  · -- the `contributors` column is gone
    intro hmem
    obtain ⟨c, hc, hren⟩ := List.mem_map.mp hmem
    by_cases hcd : c = "deep_sleep"
    · subst hcd
      unfold renameDS at hren
      rw [if_pos rfl] at hren
      exact absurd hren (by decide)
    · unfold renameDS at hren
      rw [if_neg hcd] at hren
      subst hren
      rcases List.mem_append.mp hc with h | h
      · have hq := (List.mem_filter.mp h).2
        simp at hq
      · rw [hFC, hOBJ, mem_unionKeys] at h
        obtain ⟨r2, hr2, hkey⟩ := h
        obtain ⟨r, hr, rfl⟩ := List.mem_map.mp hr2
        unfold rowKeys at hkey
        rw [List.map_map] at hkey
        have hck : "contributors" ∈ (oF r).map Prod.fst := by
          simpa [Function.comp] using hkey
        exact hnocl r hr hck
  · -- the scalar `contributors_deep_sleep` column
    have hlt : List.indexOf "deep_sleep" FC < FC.length :=
      List.indexOf_lt_length.mpr hdsmem
    refine ⟨DC.length + List.indexOf "deep_sleep" FC, ?_, ?_⟩
    · rw [List.getElem?_map, List.getElem?_append_right (Nat.le_add_right _ _),
        Nat.add_sub_cancel_left, List.getElem?_eq_getElem hlt]
      have hval : FC[List.indexOf "deep_sleep" FC] = "deep_sleep" :=
        List.getElem_indexOf hlt
      simp [hval, renameDS]
    · intro i hi
      have h1 : i < (P.map (fun r => DC.map (fun k => r.lookup k))).length := by
        simpa using hi
      have h2 : i < (OBJ.map (fun r2 => FC.map (fun k => r2.lookup k))).length := by
        simpa [hOBJ] using hi
      rw [zipWith_append_cell _ _ i h1 h2]
      have hg1 : (P.map (fun r => DC.map (fun k => r.lookup k))).get ⟨i, h1⟩ =
          DC.map (fun k => (P.get ⟨i, hi⟩).lookup k) := by
        simp [List.get_eq_getElem, List.getElem_map]
      have hiO : i < OBJ.length := by
        simpa [hOBJ] using hi
      have hg2 : (OBJ.map (fun r2 => FC.map (fun k => r2.lookup k))).get ⟨i, h2⟩ =
          FC.map (fun k => (OBJ.get ⟨i, hiO⟩).lookup k) := by
        simp [List.get_eq_getElem, List.getElem_map]
      rw [hg1, hg2]
      have hOi0 : OBJ[i]? =
          some ((oF (P.get ⟨i, hi⟩)).map (fun kv => (kv.1, Value.sc kv.2))) := by
        rw [hOBJ, List.getElem?_map, List.getElem?_eq_getElem hi]
        simp [List.get_eq_getElem]
      have hOi : OBJ.get ⟨i, hiO⟩ =
          (oF (P.get ⟨i, hi⟩)).map (fun kv => (kv.1, Value.sc kv.2)) := by
        have h3 := List.getElem?_eq_getElem hiO
        rw [hOi0] at h3
        simpa [List.get_eq_getElem] using (Option.some.inj h3).symm
      simp only [Option.bind]
      rw [append_map_getElem DC FC _ _ _ hlt]
      have hval : FC.get ⟨List.indexOf "deep_sleep" FC, hlt⟩ = "deep_sleep" := by
        rw [List.get_eq_getElem]
        exact List.getElem_indexOf hlt
      rw [hval, hOi, lookup_map_scalar]
      have hmem : P.get ⟨i, hi⟩ ∈ P := List.get_mem P i hi
      rw [hds _ hmem]
      rfl
  · -- nested sub-fields are lifted to top-level columns
    intro r hr kv hkv hne
    refine List.mem_map.mpr ⟨kv.1, List.mem_append.mpr (Or.inr ?_), ?_⟩
    · rw [hFC, hOBJ, mem_unionKeys]
      refine ⟨(oF r).map (fun kv2 => (kv2.1, Value.sc kv2.2)),
        List.mem_map_of_mem _ hr, ?_⟩
      unfold rowKeys
      rw [List.map_map]
      have hmm : kv.1 ∈ (oF r).map Prod.fst := List.mem_map_of_mem _ hkv
      simpa [Function.comp] using hmm
    · unfold renameDS
      rw [if_neg hne]

/-- C6: for every non-empty deep-sleep API payload whose rows carry a
nested `contributors` object (of scalar fields, one of them
`deep_sleep`, none itself named `contributors`) with `deep_sleep = X`,
the frame that `get_deep_sleep_duration` hands to the plotting stage
has the nested `contributors` column removed, the nested sub-fields
lifted to top-level columns, and a scalar column
`contributors_deep_sleep` whose cell in each row equals that row's
`X`. -/
theorem get_deep_sleep_duration_normalizes
    (net : String → List (String × String) → List JsonRow)
    (tok sd e : String) (du : Option String)
    (loadCsvFrame : Unit → Option Frame)
    (P : List JsonRow) (oF : JsonRow → List (String × Scalar)) (xF : JsonRow → Scalar)
    (htok : ¬ tok = "")
    (hnet : net "daily_sleep" [("start_date", sd), ("end_date", e)] = P)
    (hP : P ≠ [])
    (hcontr : ∀ r ∈ P, r.lookup "contributors" = some (Value.obj (oF r)))
    (hds : ∀ r ∈ P, (oF r).lookup "deep_sleep" = some (xF r))
    (hnocl : ∀ r ∈ P, ¬ "contributors" ∈ (oF r).map Prod.fst) :
    ∃ F : Frame,
      (get_deep_sleep_duration net tok loadCsvFrame "api" sd (some e) du).plotted =
        some F ∧
      ¬ "contributors" ∈ F.cols ∧
      (∃ j : ℕ, F.cols[j]? = some "contributors_deep_sleep" ∧
        ∀ i (hi : i < P.length),
          (F.rows[i]?.bind (fun row => row[j]?)) =
            some (some (Value.sc (xF (P.get ⟨i, hi⟩))))) ∧
      (∀ r ∈ P, ∀ kv ∈ oF r, ¬ kv.1 = "deep_sleep" → kv.1 ∈ F.cols) := by
  obtain ⟨F, hrun, hFne, hnc, hj, hlift⟩ :=
    normalize_deep_sleep_spec P oF xF hP hcontr hds hnocl
  refine ⟨F, ?_, hnc, hj, hlift⟩
  obtain ⟨r0, hr0⟩ := List.exists_mem_of_ne_nil P hP
  have hcmem : "contributors" ∈ unionKeys P := by
    rw [mem_unionKeys]
    exact ⟨r0, hr0, mem_keys_of_lookup_some _ _ _ (hcontr r0 hr0)⟩
  have hv : ("daily_sleep" : String) ∈ validDataTypes := by decide
  have hemp : P.isEmpty = false := by
    simpa [List.isEmpty_iff] using hP
  have hfetch : fetch_data_from_api net tok "daily_sleep" sd (some e) du false none =
      ⟨.val (fromDict P),
       ["Requesting " ++ "daily_sleep" ++ " data... ", "done!",
        "Data successfully saved to " ++ filenameRepr none],
       some [("start_date", sd), ("end_date", e)], none⟩ := by
    simp [fetch_data_from_api, fetchParams, htok, hv, hnet, hemp]
  have hdfe : (fromDict P).isEmpty = false := by
    unfold Frame.isEmpty fromDict
    simp only [Bool.or_eq_false_iff]
    constructor
    · simpa [List.isEmpty_iff, List.map_eq_nil_iff] using hP
    · have hne := List.ne_nil_of_mem hcmem
      simpa [List.isEmpty_iff] using hne
  unfold get_deep_sleep_duration
  rw [if_neg (by decide : ¬ ("api" : String) = "csv"), if_pos rfl, hfetch]
  simp [hdfe, hrun, hFne]

/-- Witness for C6: a two-row payload with nested per-row deep-sleep
contributions 70 and 55. -/
theorem get_deep_sleep_duration_normalizes_witness :
    ∃ F : Frame,
      (get_deep_sleep_duration
        (fun _ _ =>
          [[("day", Value.sc (Scalar.str "2023-11-01")),
            ("contributors", Value.obj [("deep_sleep", Scalar.num 70)])],
           [("day", Value.sc (Scalar.str "2023-11-02")),
            ("contributors", Value.obj [("deep_sleep", Scalar.num 55)])]])
        "t" (fun _ => none) "api" "2023-11-01" (some "2023-11-02") none).plotted =
        some F ∧
      ¬ "contributors" ∈ F.cols ∧
      (∃ j : ℕ, F.cols[j]? = some "contributors_deep_sleep" ∧
        ∀ i (hi : i <
          ([[("day", Value.sc (Scalar.str "2023-11-01")),
             ("contributors", Value.obj [("deep_sleep", Scalar.num 70)])],
            [("day", Value.sc (Scalar.str "2023-11-02")),
             ("contributors", Value.obj [("deep_sleep", Scalar.num 55)])]] :
              List JsonRow).length),
          (F.rows[i]?.bind (fun row => row[j]?)) =
            some (some (Value.sc (Scalar.num (if i = 0 then 70 else 55))))) ∧
      (∀ r ∈ ([[("day", Value.sc (Scalar.str "2023-11-01")),
             ("contributors", Value.obj [("deep_sleep", Scalar.num 70)])],
            [("day", Value.sc (Scalar.str "2023-11-02")),
             ("contributors", Value.obj [("deep_sleep", Scalar.num 55)])]] :
              List JsonRow),
        ∀ kv ∈ (if r.lookup "day" = some (Value.sc (Scalar.str "2023-11-01")) then
            [("deep_sleep", Scalar.num 70)] else [("deep_sleep", Scalar.num 55)]),
          ¬ kv.1 = "deep_sleep" → kv.1 ∈ F.cols) := by
  have h := get_deep_sleep_duration_normalizes
    (fun _ _ =>
      [[("day", Value.sc (Scalar.str "2023-11-01")),
        ("contributors", Value.obj [("deep_sleep", Scalar.num 70)])],
       [("day", Value.sc (Scalar.str "2023-11-02")),
        ("contributors", Value.obj [("deep_sleep", Scalar.num 55)])]])
    "t" "2023-11-01" "2023-11-02" none (fun _ => none)
    [[("day", Value.sc (Scalar.str "2023-11-01")),
      ("contributors", Value.obj [("deep_sleep", Scalar.num 70)])],
     [("day", Value.sc (Scalar.str "2023-11-02")),
      ("contributors", Value.obj [("deep_sleep", Scalar.num 55)])]]
    (fun r => if r.lookup "day" = some (Value.sc (Scalar.str "2023-11-01")) then
        [("deep_sleep", Scalar.num 70)] else [("deep_sleep", Scalar.num 55)])
    (fun r => if r.lookup "day" = some (Value.sc (Scalar.str "2023-11-01")) then
        Scalar.num 70 else Scalar.num 55)
    (by decide) (by decide) (by decide) (by decide) (by decide) (by decide)
  obtain ⟨F, h1, h2, ⟨j, hj1, hj2⟩, h4⟩ := h
  refine ⟨F, h1, h2, ⟨j, hj1, ?_⟩, h4⟩
  intro i hi
  have hval := hj2 i hi
  have hi2 : i < 2 := by simpa using hi
  interval_cases i <;> simpa using hval

/-! ## Plotting, trend detection, anomaly detection (`plot_data`,
`get_and_plot_daily_data`)

The plotted metric column is a list of optional rationals (`none` =
`NaN`; the code's floats carry exact decimal data here, modelled in
`ℚ`).  The external `ruptures.Pelt(model=...).fit(signal).predict(pen)`
solver is an abstract function `pelt model signal penalty`; `numpy.log`
of the signal length is an abstract `npLog`; pandas
`resample(f'{p}D').mean()` of the aggregated path is an abstract
`resample`. -/

/-- Trailing rolling window of positional width 7 ending at index `i`
(pandas `rolling(window=7, min_periods=1)` windows are positional;
`NaN` entries stay in the window but are excluded from computation). -/
def windowAt (xs : List (Option ℚ)) (i : ℕ) : List (Option ℚ) :=
  (xs.take (i + 1)).drop (i + 1 - 7)

/-- The non-`NaN` observations inside the window ending at `i`. -/
def obsAt (xs : List (Option ℚ)) (i : ℕ) : List ℚ :=
  (windowAt xs i).filterMap id

/-- `series.rolling(window=7, min_periods=1).mean()` at position `i`
(`none` = `NaN`: fewer than 1 observation). -/
def rollingMeanAt (xs : List (Option ℚ)) (i : ℕ) : Option ℚ :=
  let v := obsAt xs i
  if v.length = 0 then none else some (v.sum / (v.length : ℚ))

/-- The square of `series.rolling(window=7, min_periods=1).std()` at
position `i`: the `ddof=1` sample variance of the window's
observations; `none` = `NaN` (fewer than 2 observations). -/
def rollingVarAt (xs : List (Option ℚ)) (i : ℕ) : Option ℚ :=
  let v := obsAt xs i
  if v.length < 2 then none
  else
    let m := v.sum / (v.length : ℚ)
    some ((v.map (fun x => (x - m) ^ 2)).sum / ((v.length : ℚ) - 1))

/-- `abs(z_scores) > anomaly_threshold` at position `i`, with
`z = (x - rolling_mean) / rolling_std`, decided exactly over `ℚ`
following IEEE float semantics: any `NaN` input (missing value, empty
window, undefined std) compares false; `std = 0` gives `z = 0/0 = NaN`
when `x = m` (false) and `z = ±inf` when `x ≠ m` (`|z| > t` true for
every finite threshold); for `std > 0`, `|x-m|/√v > t` holds iff
`t < 0` or `t² · v < (x-m)²` (see `absZGt_sqrt_iff`). -/
def absZGtAt (xs : List (Option ℚ)) (i : ℕ) (t : ℚ) : Bool :=
  match xs.getD i none, rollingMeanAt xs i, rollingVarAt xs i with
  | some x, some m, some v =>
    if v = 0 then decide (¬ x = m)
    else decide (t < 0) || decide (t ^ 2 * v < (x - m) ^ 2)
  | _, _, _ => false

/-- The positions flagged by the anomaly detector
(`df.loc[abs(z_scores) > anomaly_threshold]`). -/
def anomalies (xs : List (Option ℚ)) (t : ℚ) : List ℕ :=
  (List.range xs.length).filter (fun i => absZGtAt xs i t)

/-- `series.mean()` (pandas skips `NaN`; `NaN` when nothing remains). -/
def nanmean (col : List (Option ℚ)) : Option ℚ :=
  let v := col.filterMap id
  if v.length = 0 then none else some (v.sum / (v.length : ℚ))

/-- One changepoint-detection pass: the cost model and signal the
solver was fitted on, the penalty passed to `predict`, the returned
cut indices, and the markers actually drawn (`none` = an exception
while drawing). -/
structure TrendInfo where
  model : String
  signal : List ℚ
  penalty : ℚ
  breakpoints : List ℕ
  markers : Option (List String)
deriving DecidableEq

/-- Observable effects of one `plot_data` call. -/
structure PlotEffects where
  printed : List String
  meanValue : Option ℚ
  mean2 : Option ℚ
  trend : Option TrendInfo
  anomalies : List ℕ
deriving DecidableEq

/-- Shallow embedding of `OuraDataHandler.plot_data`
(`oura_data_handler.py` lines 140-204): `days` and `col` are the
frame's `day` and plotted metric columns, `col2` the optional second
column.  `n_bkps` is accepted, as in the source, and never read.  The
trend pass fits `Pelt(model="l2")` on the `NaN`-dropped signal with
penalty `log(len(signal))` and draws a marker for every returned cut
index except the last (`change_points[:-1]`), reading each marker's
date with `df['day'].iloc[cp]` (an out-of-range index would raise:
`markers = none`). -/
def plot_data (days : List String) (col : List (Option ℚ))
    (col2 : Option (List (Option ℚ))) (detect_trends : Bool) (n_bkps : ℕ)
    (detect_anomalies : Bool) (anomaly_threshold : ℚ)
    (pelt : String → List ℚ → ℚ → List ℕ) (npLog : ℕ → ℚ) : PlotEffects :=
  if days.isEmpty then
    ⟨["No data to plot."], none, none, none, []⟩
  else
    ⟨[],
     nanmean col,
     (match col2 with
      | some c2 => nanmean c2
      | none => none),
     (if detect_trends then
        some ⟨"l2", col.filterMap id,
          npLog (col.filterMap id).length,
          pelt "l2" (col.filterMap id) (npLog (col.filterMap id).length),
          if ((pelt "l2" (col.filterMap id)
                (npLog (col.filterMap id).length)).dropLast).all
              (fun cp => cp < days.length) then
            some (((pelt "l2" (col.filterMap id)
              (npLog (col.filterMap id).length)).dropLast).map
                (fun cp => days.getD cp ""))
          else none⟩
      else none),
     (if detect_anomalies then anomalies col anomaly_threshold else [])⟩

/-- Observable effects of one `get_and_plot_daily_data` call.  In the
aggregated (`peacewisedDays ≠ 1`) path the frame was re-indexed by
`set_index('day')`, so the marker loop's `df['day']` and the anomaly
scatter's `anomalies['day']` raise `KeyError` whenever they execute:
`raised` records that the call terminated with an exception. -/
structure GPDEffects where
  printed : List String
  raised : Bool
  single : Option PlotEffects
  aggSeries : Option (List (String × Option ℚ))
  aggMean : Option (Option ℚ)
  aggTrend : Option TrendInfo
  aggAnomalies : Option (List ℕ)
deriving DecidableEq

/-- Shallow embedding of `OuraDataHandler.get_and_plot_daily_data`
(`oura_data_handler.py` lines 233-349).  The two loaders are passed as
their results (`csvResult`/`apiResult`, as day column plus selected
metric column; `.raised` = loader raised, `.retNone` = no frame);
their own contracts are verified separately.  The aggregated path
resamples through the abstract `resample`, fits `Pelt(model="rbf")` on
the `NaN`-dropped unresampled column, and raises `KeyError` at the
first marker drawn and at a non-empty anomaly scatter. -/
def get_and_plot_daily_data
    (csvResult apiResult : PyRet (List String × List (Option ℚ)))
    (source : String) (peacewisedDays : ℕ) (n_bkps : ℕ)
    (detect_trends detect_anomalies : Bool) (anomaly_threshold : ℚ)
    (pelt : String → List ℚ → ℚ → List ℕ) (npLog : ℕ → ℚ)
    (resample : ℕ → List String → List (Option ℚ) → List (String × Option ℚ)) :
    GPDEffects :=
  if source = "csv" ∨ source = "api" then
    match (if source = "csv" then csvResult else apiResult) with
    | .raised => ⟨[], true, none, none, none, none, none⟩
    | .retNone => ⟨[], true, none, none, none, none, none⟩
    | .val df =>
      if df.1.isEmpty then
        ⟨["No data available to plot."], false, none, none, none, none, none⟩
      else if peacewisedDays = 1 then
        ⟨[], false,
         some (plot_data df.1 df.2 none detect_trends n_bkps detect_anomalies
           anomaly_threshold pelt npLog),
         none, none, none, none⟩
      else
        let trend : Option TrendInfo :=
          if detect_trends then
            some ⟨"rbf", df.2.filterMap id,
              npLog (df.2.filterMap id).length,
              pelt "rbf" (df.2.filterMap id) (npLog (df.2.filterMap id).length),
              if ((pelt "rbf" (df.2.filterMap id)
                    (npLog (df.2.filterMap id).length)).dropLast).isEmpty then
                some []
              else none⟩
          else none
        if (match trend with
            | some ti => ti.markers.isNone
            | none => false) then
          ⟨[], true, none, some (resample peacewisedDays df.1 df.2),
           some (nanmean df.2), trend, none⟩
        else
          if (if detect_anomalies then anomalies df.2 anomaly_threshold else
              []).isEmpty then
            ⟨[], false, none, some (resample peacewisedDays df.1 df.2),
             some (nanmean df.2), trend,
             some (if detect_anomalies then anomalies df.2 anomaly_threshold
               else [])⟩
          else
            ⟨[], true, none, some (resample peacewisedDays df.1 df.2),
             some (nanmean df.2), trend,
             some (if detect_anomalies then anomalies df.2 anomaly_threshold
               else [])⟩
  else ⟨["Invalid data source!"], false, none, none, none, none, none⟩

theorem filterMap_id_replicate_some (k : ℕ) (c : ℚ) :
    (List.replicate k (some c)).filterMap id = List.replicate k c := by
  induction k with
  | zero => rfl
  | succ k ih => simp [List.replicate_succ, ih]

theorem absZGtAt_eq_false_of_var_none (xs : List (Option ℚ)) (i : ℕ) (t : ℚ)
    (h : rollingVarAt xs i = none) : absZGtAt xs i t = false := by
  unfold absZGtAt
  rw [h]
  rcases xs.getD i none with _ | x <;> rcases rollingMeanAt xs i with _ | m <;> rfl

theorem absZGtAt_eq_false_of_getD_none (xs : List (Option ℚ)) (i : ℕ) (t : ℚ)
    (h : xs.getD i none = none) : absZGtAt xs i t = false := by
  unfold absZGtAt
  rw [h]

/-- Exact-arithmetic justification of the float `|z| > t` test in
`absZGtAt` for positive variance: the squared comparison decides
exactly `t < |x - m| / √v` over the reals. -/
theorem absZGt_sqrt_iff (x m v t : ℚ) (hv : 0 < v) :
    (decide (t < 0) || decide (t ^ 2 * v < (x - m) ^ 2)) = true ↔
      (t : ℝ) < |(x : ℝ) - (m : ℝ)| / Real.sqrt (v : ℝ) := by
  have hvR : (0 : ℝ) < (v : ℝ) := by exact_mod_cast hv
  rw [Bool.or_eq_true, decide_eq_true_iff, decide_eq_true_iff]
  constructor
  · rintro (ht | hlt)
    · have htR : (t : ℝ) < 0 := by exact_mod_cast ht
      exact lt_of_lt_of_le htR (by positivity)
    · by_cases ht : (t : ℝ) < 0
      · exact lt_of_lt_of_le ht (by positivity)
      · push_neg at ht
        rw [lt_div_iff₀ (Real.sqrt_pos.mpr hvR)]
        have h1 : ((t : ℝ) * Real.sqrt v) ^ 2 < |(x : ℝ) - m| ^ 2 := by
          rw [mul_pow, Real.sq_sqrt hvR.le, sq_abs]
          exact_mod_cast hlt
        exact (pow_lt_pow_iff_left₀ (by positivity) (abs_nonneg _) (by norm_num)).mp h1
  · intro h
    by_cases ht : t < 0
    · exact Or.inl ht
    · right
      push_neg at ht
      rw [lt_div_iff₀ (Real.sqrt_pos.mpr hvR)] at h
      have h1 : ((t : ℝ) * Real.sqrt v) ^ 2 < |(x : ℝ) - m| ^ 2 :=
        (pow_lt_pow_iff_left₀ (by positivity) (abs_nonneg _) (by norm_num)).mpr h
      rw [mul_pow, Real.sq_sqrt hvR.le, sq_abs] at h1
      exact_mod_cast h1

/-- On a constant series no position is ever flagged, whatever the
threshold: the rolling variance is `NaN` (one observation) or `0`, and
the point always equals the window mean. -/
theorem absZGtAt_replicate (n : ℕ) (c t : ℚ) (i : ℕ) :
    absZGtAt (List.replicate n (some c)) i t = false := by
  by_cases hin : i < n
  · have hobs : obsAt (List.replicate n (some c)) i =
        List.replicate (min (i + 1) n - (i + 1 - 7)) c := by
      unfold obsAt windowAt
      rw [List.take_replicate, List.drop_replicate, filterMap_id_replicate_some]
    have hx : (List.replicate n (some c)).getD i none = some c := by
      rw [List.getD_eq_getElem?_getD, List.getElem?_replicate, if_pos hin]
      rfl
    rcases Nat.lt_or_ge (min (i + 1) n - (i + 1 - 7)) 2 with hk | hk
    · apply absZGtAt_eq_false_of_var_none
      unfold rollingVarAt
      rw [hobs]
      rw [if_pos (by simpa using hk)]
    · have hkpos : (0 : ℚ) < (min (i + 1) n - (i + 1 - 7) : ℕ) := by
        have : 0 < min (i + 1) n - (i + 1 - 7) := by omega
        exact_mod_cast this
      have hmean : rollingMeanAt (List.replicate n (some c)) i = some c := by
        unfold rollingMeanAt
        rw [hobs]
        rw [if_neg (by simp; omega)]
        congr 1
        rw [List.sum_replicate, nsmul_eq_mul, List.length_replicate]
        field_simp
      have hvar : rollingVarAt (List.replicate n (some c)) i = some 0 := by
        unfold rollingVarAt
        rw [hobs]
        rw [if_neg (by simp; omega)]
        have hm : (List.replicate (min (i + 1) n - (i + 1 - 7)) c).sum /
            ((List.replicate (min (i + 1) n - (i + 1 - 7)) c).length : ℚ) = c := by
          rw [List.sum_replicate, nsmul_eq_mul, List.length_replicate]
          field_simp
        rw [hm]
        simp [List.map_replicate, List.sum_replicate]
      unfold absZGtAt
      rw [hx, hmean, hvar]
      simp
  · apply absZGtAt_eq_false_of_getD_none
    rw [List.getD_eq_getElem?_getD, List.getElem?_replicate, if_neg hin]
    rfl

/-- No anomalies on a constant series, for every threshold. -/
theorem anomalies_replicate (n : ℕ) (c t : ℚ) :
    anomalies (List.replicate n (some c)) t = [] := by
  unfold anomalies
  rw [List.filter_eq_nil_iff]
  intro i hi
  simp [absZGtAt_replicate]

/-- C7: the anomaly detector flags exactly the positions whose
`|z|`-test over the 7-sample trailing window (minimum one observation)
exceeds the threshold, and consequently on an all-identical-value
series no point is flagged, regardless of the threshold — both for the
detector itself and through `plot_data` with `detect_anomalies`
enabled. -/
theorem constant_series_no_anomalies (days : List String) (n : ℕ) (c t : ℚ)
    (col2 : Option (List (Option ℚ))) (dt : Bool) (nb : ℕ)
    (pelt : String → List ℚ → ℚ → List ℕ) (npLog : ℕ → ℚ) :
    (∀ xs tt, anomalies xs tt =
      (List.range xs.length).filter (fun i => absZGtAt xs i tt)) ∧
    anomalies (List.replicate n (some c)) t = [] ∧
    (plot_data days (List.replicate n (some c)) col2 dt nb true t pelt
      npLog).anomalies = [] := by
  refine ⟨fun xs tt => rfl, anomalies_replicate n c t, ?_⟩
  unfold plot_data
  split
  · rfl
  · simp [anomalies_replicate]

/-- C8: single-day trend detection fits `Pelt(model="l2")` on the
`NaN`-dropped series with penalty `log(series length)` and draws
exactly the returned cut indices minus the last one; the aggregated
path fits `Pelt(model="rbf")` on the `NaN`-dropped (unresampled)
series with the same penalty rule, and never draws the last cut index
either (there any drawn marker list is empty, since drawing a marker
raises `KeyError` on the re-indexed frame). -/
theorem trend_detection_spec
    (days : List String) (col : List (Option ℚ)) (col2 : Option (List (Option ℚ)))
    (nb : ℕ) (da : Bool) (t : ℚ)
    (pelt : String → List ℚ → ℚ → List ℕ) (npLog : ℕ → ℚ)
    (csvResult apiResult : PyRet (List String × List (Option ℚ)))
    (resample : ℕ → List String → List (Option ℚ) → List (String × Option ℚ))
    (p : ℕ)
    (hdays : ¬ days.isEmpty = true)
    (hapi : apiResult = .val (days, col))
    (hp : ¬ p = 1) :
    (∃ ti : TrendInfo,
      (plot_data days col col2 true nb da t pelt npLog).trend = some ti ∧
      ti.model = "l2" ∧
      ti.signal = col.filterMap id ∧
      ti.penalty = npLog (col.filterMap id).length ∧
      ti.breakpoints = pelt "l2" ti.signal ti.penalty ∧
      (∀ ms, ti.markers = some ms →
        ms = (ti.breakpoints.dropLast).map (fun cp => days.getD cp ""))) ∧
    (∃ ti : TrendInfo,
      (get_and_plot_daily_data csvResult apiResult "api" p nb true da t pelt
        npLog resample).aggTrend = some ti ∧
      ti.model = "rbf" ∧
      ti.signal = col.filterMap id ∧
      ti.penalty = npLog (col.filterMap id).length ∧
      ti.breakpoints = pelt "rbf" ti.signal ti.penalty ∧
      (∀ ms, ti.markers = some ms → ms = [])) := by
  constructor
  · refine ⟨⟨"l2", col.filterMap id, npLog (col.filterMap id).length,
      pelt "l2" (col.filterMap id) (npLog (col.filterMap id).length),
      if ((pelt "l2" (col.filterMap id)
            (npLog (col.filterMap id).length)).dropLast).all
          (fun cp => cp < days.length) then
        some (((pelt "l2" (col.filterMap id)
          (npLog (col.filterMap id).length)).dropLast).map
            (fun cp => days.getD cp ""))
      else none⟩, ?_, rfl, rfl, rfl, rfl, ?_⟩
    · unfold plot_data
      rw [if_neg hdays]
      rfl
    · intro ms hms
      dsimp only at hms
      split at hms
      · injection hms with hms
        exact hms.symm
      · exact absurd hms (by simp)
  · refine ⟨⟨"rbf", col.filterMap id, npLog (col.filterMap id).length,
      pelt "rbf" (col.filterMap id) (npLog (col.filterMap id).length),
      if ((pelt "rbf" (col.filterMap id)
            (npLog (col.filterMap id).length)).dropLast).isEmpty then
        some []
      else none⟩, ?_, rfl, rfl, rfl, rfl, ?_⟩
    · unfold get_and_plot_daily_data
      rw [if_pos (Or.inr rfl), if_neg (by decide : ¬ ("api" : String) = "csv"), hapi]
      dsimp only
      rw [if_neg hdays, if_neg hp]
      rw [apply_ite GPDEffects.aggTrend, apply_ite GPDEffects.aggTrend]
      dsimp only
      rw [ite_self, ite_self]
      rfl
    · intro ms hms
      dsimp only at hms
      split at hms
      · injection hms with hms
        exact hms.symm
      · exact absurd hms (by simp)

/-- Witness for C8 with a concrete two-point series and a solver stub
returning cuts `[1, 2]`. -/
theorem trend_detection_spec_witness :
    (∃ ti : TrendInfo,
      (plot_data ["2023-11-01", "2023-11-02"] [some 1, some 2] none true 0 false 2
        (fun _ _ _ => [1, 2]) (fun n => (n : ℚ))).trend = some ti ∧
      ti.model = "l2" ∧
      ti.signal = ([some 1, some 2] : List (Option ℚ)).filterMap id ∧
      ti.penalty = (fun n => (n : ℚ)) (([some 1, some 2] :
        List (Option ℚ)).filterMap id).length ∧
      ti.breakpoints = (fun _ _ _ => [1, 2]) "l2" ti.signal ti.penalty ∧
      (∀ ms, ti.markers = some ms →
        ms = (ti.breakpoints.dropLast).map
          (fun cp => (["2023-11-01", "2023-11-02"] : List String).getD cp ""))) ∧
    (∃ ti : TrendInfo,
      (get_and_plot_daily_data (.retNone)
        (.val (["2023-11-01", "2023-11-02"], [some 1, some 2])) "api" 2 0 true
        false 2 (fun _ _ _ => [1, 2]) (fun n => (n : ℚ))
        (fun _ _ _ => [])).aggTrend = some ti ∧
      ti.model = "rbf" ∧
      ti.signal = ([some 1, some 2] : List (Option ℚ)).filterMap id ∧
      ti.penalty = (fun n => (n : ℚ)) (([some 1, some 2] :
        List (Option ℚ)).filterMap id).length ∧
      ti.breakpoints = (fun _ _ _ => [1, 2]) "rbf" ti.signal ti.penalty ∧
      (∀ ms, ti.markers = some ms → ms = [])) :=
  trend_detection_spec ["2023-11-01", "2023-11-02"] [some 1, some 2] none 0 false 2
    (fun _ _ _ => [1, 2]) (fun n => (n : ℚ)) (.retNone)
    (.val (["2023-11-01", "2023-11-02"], [some 1, some 2])) (fun _ _ _ => []) 2
    (by decide) rfl (by decide)

/-- C9: the `n_bkps` parameter of `plot_data` and
`get_and_plot_daily_data` is accepted but never read: two invocations
differing only in `n_bkps` have identical observable effects —
changepoints, anomalies, printed output, everything. -/
theorem n_bkps_unused
    (days : List String) (col : List (Option ℚ)) (col2 : Option (List (Option ℚ)))
    (dt da : Bool) (t : ℚ)
    (pelt : String → List ℚ → ℚ → List ℕ) (npLog : ℕ → ℚ)
    (csvResult apiResult : PyRet (List String × List (Option ℚ)))
    (source : String) (p : ℕ)
    (resample : ℕ → List String → List (Option ℚ) → List (String × Option ℚ))
    (n1 n2 : ℕ) :
    plot_data days col col2 dt n1 da t pelt npLog =
      plot_data days col col2 dt n2 da t pelt npLog ∧
    get_and_plot_daily_data csvResult apiResult source p n1 dt da t pelt npLog
        resample =
      get_and_plot_daily_data csvResult apiResult source p n2 dt da t pelt npLog
        resample :=
  ⟨rfl, rfl⟩

end PourYa
